import Mathlib

/-!
Verification of the Discord bot bridge (`discord_bot.py`) of the
daily_stock_analysis repository: a shallow embedding of its result
renderer (`create_analysis_embed`), its `watchlist_add`, `analysis` and
`market` command handlers, and proofs about them.

Python strings are modelled as Lean `String` (a sequence of Unicode code
points, as in Python 3) except in the market-report pagination, where
`List Char` makes positional slicing easier to reason about; Python's
`len` and slicing count code points, matching `String.length` /
`List.take` / `List.drop`.  The wall-clock reading `datetime.now()` is an
explicit `now` parameter.  Collaborator calls (the store, the analysis
engine, the notification service) are explicit parameters describing
their outcome, and each handler is a pure function from those outcomes to
the list of its observable effects, in order.
-/

namespace DiscordBot

/-- An RGB color, as built by `discord.Color.from_rgb`. -/
structure Color where
  red : Nat
  green : Nat
  blue : Nat
deriving DecidableEq

/-- One named field of a Discord embed (`embed.add_field`). -/
structure EmbedField where
  name : String
  value : String
  inl : Bool
deriving DecidableEq

/-- A Discord embed as `create_analysis_embed` builds it: title,
description, color, creation timestamp, the added fields in order, and
the footer text. -/
structure Embed where
  title : String
  description : String
  color : Color
  timestamp : Nat
  fields : List EmbedField
  footer : String
deriving DecidableEq

/-- Modelled from the spec: the dashboard's `core_conclusion` section of
the external `AnalysisResult`; the renderer reads only its
`time_sensitivity` entry (`core.get('time_sensitivity', '本周内')`).
`none` stands for a missing key. -/
structure CoreConclusion where
  time_sensitivity : Option String
deriving DecidableEq

/-- Modelled from the spec: the `sniper_points` sub-mapping of the
dashboard's `battle_plan`; each entry read with default `'N/A'`. -/
structure SniperPoints where
  ideal_buy : Option String
  stop_loss : Option String
  take_profit : Option String
deriving DecidableEq

/-- Modelled from the spec: the `position_strategy` sub-mapping of the
dashboard's `battle_plan`. -/
structure PositionStrategy where
  suggested_position : Option String
  risk_control : Option String
deriving DecidableEq

/-- Modelled from the spec: the dashboard's `battle_plan` section.  A
sub-mapping that is absent or an empty (falsy) dict is `none`; `some`
stands for a present, non-empty (truthy) dict, whose individual keys may
still be missing. -/
structure BattlePlan where
  sniper_points : Option SniperPoints
  position_strategy : Option PositionStrategy
deriving DecidableEq

/-- Modelled from the spec: `price_position` of `data_perspective`. -/
structure PricePosition where
  bias_ma5 : Option String
deriving DecidableEq

/-- Modelled from the spec: `volume_analysis` of `data_perspective`. -/
structure VolumeAnalysis where
  volume_status : Option String
deriving DecidableEq

/-- Modelled from the spec: `chip_structure` of `data_perspective`. -/
structure ChipStructure where
  chip_health : Option String
deriving DecidableEq

/-- Modelled from the spec: the dashboard's `data_perspective` section;
`none` for an absent or empty (falsy) sub-dict, as in `BattlePlan`. -/
structure DataPerspective where
  price_position : Option PricePosition
  volume_analysis : Option VolumeAnalysis
  chip_structure : Option ChipStructure
deriving DecidableEq

/-- Modelled from the spec: the dashboard's `intelligence` section with
its `risk_alerts` ordered list of strings; `none` for a missing key. -/
structure Intelligence where
  risk_alerts : Option (List String)
deriving DecidableEq

/-- Modelled from the spec: the optional nested dashboard mapping of an
`AnalysisResult`, with sections `core_conclusion`, `battle_plan`,
`data_perspective`, `intelligence`. -/
structure Dashboard where
  core_conclusion : Option CoreConclusion
  battle_plan : Option BattlePlan
  data_perspective : Option DataPerspective
  intelligence : Option Intelligence
deriving DecidableEq

/-- Modelled from the spec: `AnalysisResult` is produced by the external
analyzer module (its code is not part of this source file).  Per the spec
it identifies one stock (`code`, `name`), carries a sentiment score
(0–100), operation-advice and trend-prediction labels, an optional
risk-warning string and an optional nested dashboard.  `emoji` and
`core_conclusion_text` stand for the values its `get_emoji()` and
`get_core_conclusion()` accessors return, which the spec describes as
derived deterministically from the result's own data. -/
structure AnalysisResult where
  code : String
  name : String
  sentiment_score : Nat
  operation_advice : String
  trend_prediction : String
  risk_warning : Option String
  dashboard : Option Dashboard
  emoji : String
  core_conclusion_text : String
deriving DecidableEq

/-- The empty dashboard, standing for Python's `{}` in
`db = result.dashboard or {}`. -/
def emptyDashboard : Dashboard := ⟨none, none, none, none⟩

/-- `db = result.dashboard or {}`. -/
def dashOf (result : AnalysisResult) : Dashboard :=
  result.dashboard.getD emptyDashboard

/-- `core = db.get('core_conclusion', {})`. -/
def coreOf (result : AnalysisResult) : CoreConclusion :=
  (dashOf result).core_conclusion.getD ⟨none⟩

/-- `battle = db.get('battle_plan', {})`. -/
def battleOf (result : AnalysisResult) : BattlePlan :=
  (dashOf result).battle_plan.getD ⟨none, none⟩

/-- `data_p = db.get('data_perspective', {})`. -/
def dataPOf (result : AnalysisResult) : DataPerspective :=
  (dashOf result).data_perspective.getD ⟨none, none, none⟩

/-- `intel = db.get('intelligence', {})`. -/
def intelOf (result : AnalysisResult) : Intelligence :=
  (dashOf result).intelligence.getD ⟨none⟩

/-- `risks = intel.get('risk_alerts', [])`. -/
def risksOf (result : AnalysisResult) : List String :=
  (intelOf result).risk_alerts.getD []

/-- The color chosen at the top of `create_analysis_embed`:
score ≥ 70 → emerald green, score ≤ 40 → red, otherwise gold. -/
def embedColor (score : Nat) : Color :=
  if 70 ≤ score then ⟨46, 204, 113⟩
  else if score ≤ 40 then ⟨231, 76, 60⟩
  else ⟨241, 196, 15⟩

/-- The three `add_field` calls under comment "1. 核心结论": composite
score, trend prediction and time sensitivity, always added. -/
def baseFields (result : AnalysisResult) : List EmbedField :=
  [⟨"🌡️ 综合评分", "**" ++ toString result.sentiment_score ++ "** 分", true⟩,
   ⟨"📈 趋势预测", result.trend_prediction, true⟩,
   ⟨"⏰ 时效性", (coreOf result).time_sensitivity.getD "本周内", true⟩]

/-- The "📍 狙击点位" field, added only when `battle.get('sniper_points', {})`
is truthy. -/
def sniperFields (result : AnalysisResult) : List EmbedField :=
  match (battleOf result).sniper_points with
  | none => []
  | some sp =>
      [⟨"📍 狙击点位",
        "🎯 **理想买入**: " ++ sp.ideal_buy.getD "N/A" ++ "\n" ++
        "🛑 **止损位**: " ++ sp.stop_loss.getD "N/A" ++ "\n" ++
        "🎊 **目标位**: " ++ sp.take_profit.getD "N/A", false⟩]

/-- The `tech_info` string accumulated from up to three sub-sections of
`data_perspective`. -/
def techInfo (result : AnalysisResult) : String :=
  (match (dataPOf result).price_position with
   | none => ""
   | some pp => "🔹 **MA5 乖离**: " ++ pp.bias_ma5.getD "0.00" ++ "%\n") ++
  (match (dataPOf result).volume_analysis with
   | none => ""
   | some vp => "🔹 **量能状态**: " ++ vp.volume_status.getD "平量" ++ "\n") ++
  (match (dataPOf result).chip_structure with
   | none => ""
   | some cp => "🔹 **筹码健康**: " ++ cp.chip_health.getD "一般" ++ "\n")

/-- The "📊 技术与筹码" field, added only when `tech_info` is non-empty. -/
def techFields (result : AnalysisResult) : List EmbedField :=
  if techInfo result = "" then []
  else [⟨"📊 技术与筹码", techInfo result, true⟩]

/-- The "💼 仓位与策略" field, added only when
`battle.get('position_strategy', {})` is truthy. -/
def stratFields (result : AnalysisResult) : List EmbedField :=
  match (battleOf result).position_strategy with
  | none => []
  | some st =>
      [⟨"💼 仓位与策略",
        "💰 **建议仓位**: " ++ st.suggested_position.getD "N/A" ++ "\n" ++
        "🛡️ **风控**: " ++ st.risk_control.getD "N/A", true⟩]

/-- The "🚨 风险警报" field: the first three `risk_alerts` bulleted when
that list is truthy (non-empty); else the flat `risk_warning` when that
string is truthy (present and non-empty); else nothing.  (The source
tests `if risks: ... elif result.risk_warning: ...`; here the falsy case
comes first, an equivalent reordering of the same two tests.) -/
def riskFieldsOf (result : AnalysisResult) : List EmbedField :=
  if risksOf result = [] then
    match result.risk_warning with
    | some w => if w = "" then [] else [⟨"🚨 风险警报", w, false⟩]
    | none => []
  else
    [⟨"🚨 风险警报",
      String.intercalate "\n" (((risksOf result).take 3).map fun s => "• " ++ s),
      false⟩]

/-- The static attribution footer. -/
def footerText : String := "数据来源：AI 深度量化分析 | 投资有风险，入市需谨慎"

/-- `create_analysis_embed(result)`, with `datetime.now()` passed in as
the explicit clock reading `now`. -/
def create_analysis_embed (now : Nat) (result : AnalysisResult) : Embed :=
  { title := result.emoji ++ " " ++ result.name ++ " (" ++ result.code ++ ") - " ++
      result.operation_advice
    description := result.core_conclusion_text
    color := embedColor result.sentiment_score
    timestamp := now
    fields := baseFields result ++ sniperFields result ++ techFields result ++
      stratFields result ++ riskFieldsOf result
    footer := footerText }

/-- The tuple of every component of an embed except its timestamp. -/
def renderedBody (e : Embed) : String × String × Color × List EmbedField × String :=
  (e.title, e.description, e.color, e.fields, e.footer)

/-- Whether a field is the "🚨 风险警报" field. -/
def isRiskField (f : EmbedField) : Bool := f.name == "🚨 风险警报"

/-! ## `watchlist_add` -/

/-- Python's `ch.isdigit()` for one character: true when the character
has Unicode property `Numeric_Type=Digit` or `Numeric_Type=Decimal`.
The full Unicode table is large; this model covers the ASCII digits
U+0030–U+0039 and the Fullwidth digits U+FF10–U+FF19 (both
`Numeric_Type=Decimal` in the Unicode character database), the only
digit ranges this development evaluates on; every other character of
this development is a non-digit for Python as well. -/
def pyIsDigitChar (c : Char) : Bool :=
  decide (('0' ≤ c ∧ c ≤ '9') ∨ ('０' ≤ c ∧ c ≤ '９'))

/-- Python's `s.isdigit()`: all characters are digits and there is at
least one character. -/
def pyIsDigit (s : String) : Bool :=
  decide (s.length ≠ 0) && s.toList.all pyIsDigitChar

/-- Python truthiness of an `Optional[str]`: `None` and `""` are falsy. -/
def pyTruthyStr : Option String → Bool
  | none => false
  | some s => s != ""

/-- The observable outcome of one `watchlist_add` invocation: whether
`bot.db.add_to_watchlist` was called, and the replies sent, each a
`(content, ephemeral)` pair in order. -/
structure WatchlistAddRun where
  storeCalled : Bool
  messages : List (String × Bool)
deriving DecidableEq

/-- The format-error reply of `watchlist_add`. -/
def fmtErrMsg : String := "❌ 股票代码格式错误，请输入 6 位数字代码"

/-- The store-failure reply of `watchlist_add`. -/
def addFailedMsg : String := "❌ 添加失败，请检查日志"

/-- The success reply of `watchlist_add`; the ` (name)` suffix is added
only when `name` is truthy. -/
def addedMsg (code : String) (name : Option String) : String :=
  "✅ 已添加自选股: `" ++ code ++ "`" ++
    (if pyTruthyStr name then " (" ++ name.getD "" ++ ")" else "")

/-- The `watchlist_add` command handler: `code` is validated with
`code.isdigit() and len(code) == 6`; on failure an ephemeral format
error is the only effect and the store is never called; otherwise the
store is called and its boolean result `storeOk` selects the reply. -/
def watchlist_add (code : String) (name comment : Option String)
    (storeOk : Bool) : WatchlistAddRun :=
  if !(pyIsDigit code && code.length == 6) then
    { storeCalled := false, messages := [(fmtErrMsg, true)] }
  else if storeOk then
    { storeCalled := true, messages := [(addedMsg code name, false)] }
  else
    { storeCalled := true, messages := [(addFailedMsg, true)] }

/-- The spec's validation predicate, following its words rather than the
source: `code` consists of exactly 6 ASCII digits. -/
def specSixAsciiDigits (s : String) : Bool :=
  s.length == 6 && s.toList.all fun c => decide ('0' ≤ c ∧ c ≤ '9')

/-! ## The `analysis` command -/

/-- Outcome of the blocking `process_single_stock` call as awaited
through the executor: a result object, `None`, or a raised exception
with its text. -/
inductive ExecOutcome where
  | ok (result : AnalysisResult)
  | nullResult
  | raised (err : String)
deriving DecidableEq

/-- Outcome of one collaborator call of the notification fan-out:
normal return or a raised exception with its text. -/
inductive CallOutcome where
  | ok
  | raised (err : String)
deriving DecidableEq

/-- One observable effect of the `analysis` command handler, in order:
the initial reply, the embed follow-up, the two fan-out calls
(`generate_dashboard_report`, `send`), an error log line, or a plain
follow-up message. -/
inductive AnalysisEffect where
  | reply (msg : String)
  | followupEmbed (e : Embed)
  | callGenerateReport
  | callNotifierSend
  | logError (msg : String)
  | followup (msg : String)
deriving DecidableEq

/-- The initial reply of the `analysis` command. -/
def startMsg (code : String) : String :=
  "🔍 正在启动针对 `" ++ code ++ "` 的分析任务，可能涉及联网搜索，请稍候..."

/-- The soft-failure follow-up sent when `process_single_stock` returns
`None`. -/
def softFailMsg (code : String) : String :=
  "❌ 分析 `" ++ code ++ "` 失败，请检查代码是否正确或查阅日志。"

/-- The follow-up sent from the handler's `except` clause. -/
def execErrMsg (err : String) : String := "❌ 执行异常: " ++ err

/-- The log line written from the handler's `except` clause. -/
def analysisLogMsg (err : String) : String := "即时分析异常: " ++ err

/-- The `analysis` command handler as the ordered list of its effects.
The whole body after the initial reply sits in one `try`: an exception
from the blocking call, from `generate_dashboard_report` or from `send`
all reach the same `except`, which logs and sends the execution-error
follow-up.  A `None` result takes the `else` branch instead: the
soft-failure follow-up, with no fan-out call. -/
def analysisCommand (now : Nat) (code : String) (exec : ExecOutcome)
    (gen sendOutcome : CallOutcome) : List AnalysisEffect :=
  AnalysisEffect.reply (startMsg code) ::
    match exec with
    | ExecOutcome.raised e =>
        [AnalysisEffect.logError (analysisLogMsg e),
         AnalysisEffect.followup (execErrMsg e)]
    | ExecOutcome.nullResult => [AnalysisEffect.followup (softFailMsg code)]
    | ExecOutcome.ok result =>
        AnalysisEffect.followupEmbed (create_analysis_embed now result) ::
          AnalysisEffect.callGenerateReport ::
          match gen with
          | CallOutcome.raised e =>
              [AnalysisEffect.logError (analysisLogMsg e),
               AnalysisEffect.followup (execErrMsg e)]
          | CallOutcome.ok =>
              AnalysisEffect.callNotifierSend ::
                match sendOutcome with
                | CallOutcome.raised e =>
                    [AnalysisEffect.logError (analysisLogMsg e),
                     AnalysisEffect.followup (execErrMsg e)]
                | CallOutcome.ok => []

/-- Whether an effect is a call into the notification fan-out. -/
def isFanoutEffect : AnalysisEffect → Bool
  | AnalysisEffect.callGenerateReport => true
  | AnalysisEffect.callNotifierSend => true
  | _ => false

/-! ## The `market` command's report pagination -/

/-- The trailing notice appended to the second sent chunk. -/
def noticeChars : List Char := String.toList "\n\n...(余下内容已通过 Webhook 推送)"

/-- Python's `[report[i:i+k] for i in range(0, len(report), k)]`:
successive positional slices of `k` characters (the last may be
shorter).  Matches the comprehension for every `k ≥ 1`. -/
def chunkList (k : Nat) : List Char → List (List Char)
  | [] => []
  | c :: cs => (c :: cs.take (k - 1)) :: chunkList k (cs.drop (k - 1))
termination_by l => l.length
decreasing_by simp [List.length_drop]; omega

/-- The follow-up messages the `market` command sends for a non-empty
report (lines 234–243 of the source): one message when the report has at
most 4000 characters; otherwise 1900-character slices, of which at most
the first two are sent, the second carrying the Webhook notice when the
report exceeds 3800 characters. -/
def marketMessages (report : List Char) : List (List Char) :=
  if 4000 < report.length then
    ((chunkList 1900 report).take 2).enum.map fun p =>
      p.2 ++ (if p.1 = 1 ∧ 3800 < report.length then noticeChars else [])
  else
    [report]

/-! ## Helper lemmas -/

lemma chunkList_eq_cons (k : Nat) (hk : 0 < k) (l : List Char) (hl : l ≠ []) :
    chunkList k l = l.take k :: chunkList k (l.drop k) := by
  cases l with
  | nil => exact absurd rfl hl
  | cons c cs =>
      obtain ⟨m, rfl⟩ : ∃ m, k = m + 1 := ⟨k - 1, by omega⟩
      simp [chunkList, List.take_succ_cons, List.drop_succ_cons]

lemma marketMessages_split (report : List Char) (h : 4000 < report.length) :
    marketMessages report =
      [report.take 1900, (report.drop 1900).take 1900 ++ noticeChars] := by
  have h0 : report ≠ [] := by
    intro e
    rw [e] at h
    simp at h
  have h1 : report.drop 1900 ≠ [] := by
    intro e
    have h2 := congrArg List.length e
    simp [List.length_drop] at h2
    omega
  have h38 : 3800 < report.length := by omega
  rw [marketMessages, if_pos h, chunkList_eq_cons 1900 (by omega) report h0,
    chunkList_eq_cons 1900 (by omega) _ h1]
  have htake : ∀ (a b : List Char) (t : List (List Char)),
      (a :: b :: t).take 2 = [a, b] := by
    intro a b t
    rfl
  rw [htake]
  have henum : ∀ (a b : List Char), ([a, b] : List (List Char)).enum = [(0, a), (1, b)] := by
    intro a b
    rfl
  rw [henum]
  simp [h38]

/-! ## Claim theorems: the `market` command -/

/-- C3 counterexample: a report of 2500 characters is sent as ONE
message of 2500 characters, not as two 1900-character chunks — the
splitting path is taken only above 4000 characters. -/
theorem market_pagination_cex :
    marketMessages (List.replicate 2500 'a') = [List.replicate 2500 'a'] ∧
    (marketMessages (List.replicate 2500 'a')).length = 1 := by
  have h1 : marketMessages (List.replicate 2500 'a') = [List.replicate 2500 'a'] := by
    rw [marketMessages, if_neg (by rw [List.length_replicate]; omega)]
  exact ⟨h1, by rw [h1]; rfl⟩

/-- C3 (amended): the market command sends a report of at most 4000
characters as one message; a longer report is split into fixed
1900-character chunks by pure positional slicing, of which only the
first two are sent, the second carrying the Webhook notice, and the
first chunk is exactly 1900 characters. -/
theorem market_pagination (report : List Char) :
    (report.length ≤ 4000 → marketMessages report = [report]) ∧
    (4000 < report.length →
      marketMessages report =
        [report.take 1900, (report.drop 1900).take 1900 ++ noticeChars] ∧
      (report.take 1900).length = 1900 ∧
      ((report.drop 1900).take 1900).length = 1900) := by
  constructor
  · intro h
    rw [marketMessages, if_neg (by omega)]
  · intro h
    refine ⟨marketMessages_split report h, ?_, ?_⟩
    · rw [List.length_take]
      omega
    · rw [List.length_take, List.length_drop]
      omega

/-- C3 witness: at length 2500 one whole message; at length 4100 two
chunks, the first exactly the first 1900 characters. -/
theorem market_pagination_witness :
    marketMessages (List.replicate 2500 'a') = [List.replicate 2500 'a'] ∧
    marketMessages (List.replicate 4100 'a') =
      [List.replicate 1900 'a', List.replicate 1900 'a' ++ noticeChars] := by
  constructor
  · exact (market_pagination (List.replicate 2500 'a')).1 (by rw [List.length_replicate]; omega)
  · have h := ((market_pagination (List.replicate 4100 'a')).2
      (by rw [List.length_replicate]; omega)).1
    rw [h, List.take_replicate, List.drop_replicate, List.take_replicate]
    norm_num

/-- C4 counterexample: a 3000-character report is emitted as a single
3000-character message, exceeding the ~1900-body / ~2000 transport cap
the claim states. -/
theorem market_chunk_cap_cex :
    marketMessages (List.replicate 3000 'a') = [List.replicate 3000 'a'] ∧
    2000 < (List.replicate 3000 'a').length := by
  refine ⟨?_, by rw [List.length_replicate]; omega⟩
  rw [marketMessages, if_neg (by rw [List.length_replicate]; omega)]

/-- C4 (amended): every message the market command emits has at most
4000 characters (the unsplit path sends the whole report, bounded only
by the 4000 threshold, so the ~1900/2000 cap can be exceeded); on the
splitting path every emitted chunk has at most 1900 characters plus the
fixed Webhook notice.  Chunk boundaries are positional slices of whole
characters, so none falls inside a character. -/
theorem market_chunk_length_bound (report : List Char) :
    (∀ m ∈ marketMessages report, m.length ≤ 4000) ∧
    (4000 < report.length →
      ∀ m ∈ marketMessages report, m.length ≤ 1900 + noticeChars.length) := by
  have hn : noticeChars.length = 25 := rfl
  by_cases h : 4000 < report.length
  · have hs := marketMessages_split report h
    have hb : ∀ m ∈ marketMessages report, m.length ≤ 1900 + noticeChars.length := by
      intro m hm
      rw [hs] at hm
      simp only [List.mem_cons, List.not_mem_nil, or_false] at hm
      rcases hm with rfl | rfl
      · rw [List.length_take]
        omega
      · rw [List.length_append, List.length_take]
        omega
    exact ⟨fun m hm => le_trans (hb m hm) (by omega), fun _ => hb⟩
  · constructor
    · intro m hm
      rw [marketMessages, if_neg h] at hm
      simp only [List.mem_singleton] at hm
      rw [hm]
      omega
    · intro hc
      exact absurd hc h

/-- C4 witness: both chunks of a 4100-character report satisfy the
amended bounds. -/
theorem market_chunk_length_bound_witness :
    (List.replicate 1900 'a').length ≤ 4000 ∧
    (List.replicate 1900 'a' ++ noticeChars).length ≤ 1900 + noticeChars.length := by
  have h4100 : marketMessages (List.replicate 4100 'a') =
      [List.replicate 1900 'a', List.replicate 1900 'a' ++ noticeChars] := by
    rw [marketMessages_split _ (by rw [List.length_replicate]; omega), List.take_replicate,
      List.drop_replicate, List.take_replicate]
    norm_num
  constructor
  · exact (market_chunk_length_bound (List.replicate 4100 'a')).1 _
      (by rw [h4100]; exact List.mem_cons_self _ _)
  · exact (market_chunk_length_bound (List.replicate 4100 'a')).2
      (by rw [List.length_replicate]; omega) _
      (by rw [h4100]; exact List.mem_cons_of_mem _ (List.mem_cons_self _ _))

/-! ## Claim theorems: the renderer -/

/-- C1: the embed color is the positive green exactly when the score is
at least 70, the negative red exactly when it is at most 40, and the
neutral gold exactly when it is between 41 and 69, both thresholds with
inclusive boundaries. -/
theorem embed_color_thresholds (now : Nat) (result : AnalysisResult) :
    ((create_analysis_embed now result).color = ⟨46, 204, 113⟩ ↔
      70 ≤ result.sentiment_score) ∧
    ((create_analysis_embed now result).color = ⟨231, 76, 60⟩ ↔
      result.sentiment_score ≤ 40) ∧
    ((create_analysis_embed now result).color = ⟨241, 196, 15⟩ ↔
      (41 ≤ result.sentiment_score ∧ result.sentiment_score ≤ 69)) := by
  have hc : (create_analysis_embed now result).color = embedColor result.sentiment_score := rfl
  rw [hc, embedColor]
  split_ifs with h1 h2 <;> simp [Color.mk.injEq] <;> omega

/-- A concrete analysis result used at concrete inputs. -/
def sampleResult : AnalysisResult :=
  { code := "600519", name := "贵州茅台", sentiment_score := 80,
    operation_advice := "买入", trend_prediction := "上涨",
    risk_warning := some "高位回调风险", dashboard := none,
    emoji := "🚀", core_conclusion_text := "强势上行" }

/-- C2 counterexample: the embed's timestamp is the wall-clock reading
of the call (`datetime.now()`), so rendering the same result at two
different times does not give byte-identical output. -/
theorem embed_time_dependence_cex :
    (create_analysis_embed 0 sampleResult).timestamp = 0 ∧
    (create_analysis_embed 1 sampleResult).timestamp = 1 ∧
    create_analysis_embed 0 sampleResult ≠ create_analysis_embed 1 sampleResult := by
  refine ⟨rfl, rfl, fun h => ?_⟩
  have h2 := congrArg Embed.timestamp h
  simp only [create_analysis_embed] at h2
  omega

/-- C2 (amended): rendering is deterministic in the `AnalysisResult`
except for the embed's timestamp, which is the clock reading of the
call: every other component (title, description, color, fields, footer)
is identical across calls at any two times and in any order. -/
theorem embed_rendering_deterministic (t1 t2 : Nat) (result : AnalysisResult) :
    renderedBody (create_analysis_embed t1 result) =
      renderedBody (create_analysis_embed t2 result) ∧
    (create_analysis_embed t1 result).timestamp = t1 := ⟨rfl, rfl⟩

lemma filter_risk_create (now : Nat) (result : AnalysisResult) :
    (create_analysis_embed now result).fields.filter isRiskField = riskFieldsOf result := by
  have hbase : (baseFields result).filter isRiskField = [] := rfl
  have hsniper : (sniperFields result).filter isRiskField = [] := by
    simp only [sniperFields]
    cases (battleOf result).sniper_points <;> rfl
  have htech : (techFields result).filter isRiskField = [] := by
    simp only [techFields]
    by_cases ht : techInfo result = ""
    · rw [if_pos ht]
      rfl
    · rw [if_neg ht]
      rfl
  have hstrat : (stratFields result).filter isRiskField = [] := by
    simp only [stratFields]
    cases (battleOf result).position_strategy <;> rfl
  have hrisk : (riskFieldsOf result).filter isRiskField = riskFieldsOf result := by
    simp only [riskFieldsOf]
    by_cases hr : risksOf result = []
    · rw [if_pos hr]
      cases result.risk_warning with
      | none => rfl
      | some w =>
          dsimp only
          by_cases hw : w = ""
          · rw [if_pos hw]
            rfl
          · rw [if_neg hw]
            rfl
    · rw [if_neg hr]
      rfl
  have hfields : (create_analysis_embed now result).fields =
      baseFields result ++ sniperFields result ++ techFields result ++
        stratFields result ++ riskFieldsOf result := rfl
  rw [hfields, List.filter_append, List.filter_append, List.filter_append,
    List.filter_append, hbase, hsniper, htech, hstrat, hrisk]
  rfl

/-- C8: the rendered "🚨 风险警报" field is: the first three entries of
the dashboard's `risk_alerts`, each prefixed with a bullet marker, when
that list is non-empty; otherwise the flat `risk_warning` string when it
is present and non-empty; otherwise the risk field is omitted. -/
theorem risk_field_rendering (now : Nat) (result : AnalysisResult) :
    (create_analysis_embed now result).fields.filter isRiskField =
      (if risksOf result = [] then
        match result.risk_warning with
        | some w => if w = "" then [] else [⟨"🚨 风险警报", w, false⟩]
        | none => []
      else
        [⟨"🚨 风险警报",
          String.intercalate "\n" (((risksOf result).take 3).map fun s => "• " ++ s),
          false⟩]) :=
  filter_risk_create now result

/-- C10: when `risk_alerts` is present but empty, no empty risk block is
rendered; the renderer falls through exactly as if the list were absent,
rendering the flat `risk_warning` when it is truthy and otherwise
omitting the risk field. -/
theorem empty_risk_list_falls_through (now : Nat) (result : AnalysisResult)
    (h : (intelOf result).risk_alerts = some []) :
    (create_analysis_embed now result).fields.filter isRiskField =
      (match result.risk_warning with
       | some w => if w = "" then [] else [⟨"🚨 风险警报", w, false⟩]
       | none => []) := by
  have hr : risksOf result = [] := by rw [risksOf, h]; rfl
  rw [filter_risk_create now result]
  simp only [riskFieldsOf, if_pos hr]

/-- A concrete result whose dashboard provides `risk_alerts` as an empty
list while a flat risk warning is present. -/
def emptyRiskListResult : AnalysisResult :=
  { code := "000001", name := "平安银行", sentiment_score := 50,
    operation_advice := "观望", trend_prediction := "震荡",
    risk_warning := some "流动性风险",
    dashboard := some ⟨none, none, none, some ⟨some []⟩⟩,
    emoji := "👀", core_conclusion_text := "中性" }

/-- C10 witness: with `risk_alerts = []` provided and a flat warning
present, the rendered risk field is exactly the flat warning. -/
theorem empty_risk_list_falls_through_witness :
    (create_analysis_embed 0 emptyRiskListResult).fields.filter isRiskField =
      [⟨"🚨 风险警报", "流动性风险", false⟩] := by
  have h := empty_risk_list_falls_through 0 emptyRiskListResult rfl
  rw [h]
  rfl

/-- A concrete result with empty trend text and no dashboard at all. -/
def bareResult : AnalysisResult :=
  { code := "600000", name := "浦发银行", sentiment_score := 55,
    operation_advice := "观望", trend_prediction := "",
    risk_warning := none, dashboard := none,
    emoji := "👀", core_conclusion_text := "中性" }

/-- C9 counterexample: with an empty trend-prediction text and no
dashboard (so no time-sensitivity source data), the composite-score,
trend-prediction and time-sensitivity fields are all still rendered —
none is omitted. -/
theorem core_fields_cex :
    bareResult.trend_prediction = "" ∧ bareResult.dashboard = none ∧
    (create_analysis_embed 0 bareResult).fields =
      [⟨"🌡️ 综合评分", "**55** 分", true⟩,
       ⟨"📈 趋势预测", "", true⟩,
       ⟨"⏰ 时效性", "本周内", true⟩] := ⟨rfl, rfl, rfl⟩

/-- C9 (amended): the composite-score, trend-prediction and
time-sensitivity fields are always rendered, unconditionally, as the
first three fields of the embed; only the time-sensitivity value falls
back to the default "本周内" when the dashboard's `core_conclusion`
lacks it. -/
theorem core_fields_always_rendered (now : Nat) (result : AnalysisResult) :
    (create_analysis_embed now result).fields.take 3 =
      [⟨"🌡️ 综合评分", "**" ++ toString result.sentiment_score ++ "** 分", true⟩,
       ⟨"📈 趋势预测", result.trend_prediction, true⟩,
       ⟨"⏰ 时效性", (coreOf result).time_sensitivity.getD "本周内", true⟩] := by
  have h3 : (baseFields result).length = 3 := rfl
  calc (create_analysis_embed now result).fields.take 3
      = (baseFields result ++ (sniperFields result ++ techFields result ++
          stratFields result ++ riskFieldsOf result)).take 3 := by
        simp only [create_analysis_embed, List.append_assoc]
    _ = baseFields result := by rw [← h3, List.take_left]
    _ = _ := rfl

/-! ## Claim theorems: `watchlist_add` -/

/-- C5 counterexample: six fullwidth digits (U+FF10 block) pass the
source's `code.isdigit() and len(code) == 6` validation, so the store is
called although the input is not six ASCII digits. -/
theorem watchlist_add_fullwidth_cex :
    (watchlist_add "１２３４５６" none none true).storeCalled = true ∧
    specSixAsciiDigits "１２３４５６" = false := by
  exact ⟨rfl, rfl⟩

/-- C5 (amended): the store is called iff the code has exactly 6
characters all accepted by Python's `isdigit` (which admits non-ASCII
digits such as the fullwidth digits); on any other input the command's
only effect is the ephemeral format-error reply and the store is never
touched. -/
theorem watchlist_add_validation (code : String) (name comment : Option String)
    (storeOk : Bool) :
    ((watchlist_add code name comment storeOk).storeCalled = true ↔
      (pyIsDigit code = true ∧ code.length = 6)) ∧
    ((pyIsDigit code && code.length == 6) = false →
      watchlist_add code name comment storeOk =
        { storeCalled := false, messages := [(fmtErrMsg, true)] }) := by
  by_cases hv : (pyIsDigit code && code.length == 6) = true
  · constructor
    · constructor
      · intro _
        have hv2 := hv
        rw [Bool.and_eq_true, beq_iff_eq] at hv2
        exact hv2
      · intro _
        cases storeOk <;> simp [watchlist_add, hv]
    · intro hcontra
      rw [hv] at hcontra
      exact Bool.noConfusion hcontra
  · have hv2 : (pyIsDigit code && code.length == 6) = false := by
      cases hb : (pyIsDigit code && code.length == 6)
      · rfl
      · exact absurd hb hv
    constructor
    · constructor
      · intro hsc
        simp [watchlist_add, hv2] at hsc
      · intro hp
        exfalso
        apply hv
        rw [Bool.and_eq_true, beq_iff_eq]
        exact hp
    · intro _
      simp [watchlist_add, hv2]

/-! ## Claim theorems: the `analysis` command -/

lemma string_data_append (a b : String) : (a ++ b).data = a.data ++ b.data := rfl

lemma softFail_ne (code err : String) : softFailMsg code ≠ execErrMsg err := by
  intro h
  have h2 := congrArg (fun s => s.data[2]?) h
  simp only [softFailMsg, execErrMsg, string_data_append, List.append_assoc] at h2
  rw [List.getElem?_append] at h2
  simp at h2

lemma softFail_beq_execErr_false (code err : String) :
    (softFailMsg code == execErrMsg err) = false :=
  beq_eq_false_iff_ne.mpr (softFail_ne code err)

/-- C6: when the blocking analysis returns `None`, the invoker receives
exactly the initial reply and the soft-failure follow-up — whose wording
differs from the caught-exception message for every exception text — and
no fan-out call (`generate_dashboard_report` / `send`) occurs. -/
theorem analysis_null_soft_failure (now : Nat) (code : String)
    (gen sendOutcome : CallOutcome) :
    analysisCommand now code ExecOutcome.nullResult gen sendOutcome =
      [AnalysisEffect.reply (startMsg code),
       AnalysisEffect.followup (softFailMsg code)] ∧
    (∀ err, (softFailMsg code == execErrMsg err) = false) ∧
    (analysisCommand now code ExecOutcome.nullResult gen sendOutcome).filter
      isFanoutEffect = [] :=
  ⟨rfl, fun err => softFail_beq_execErr_false code err, rfl⟩

/-- C7 counterexample: when the fan-out's `send` raises after the embed
reply was already sent, the failure IS surfaced to the invoker as an
execution-exception follow-up — the handler's single `try` wraps the
fan-out too. -/
theorem fanout_failure_surfaced_cex :
    AnalysisEffect.followup (execErrMsg "boom") ∈
      analysisCommand 0 "600519" (ExecOutcome.ok sampleResult) CallOutcome.ok
        (CallOutcome.raised "boom") := by
  simp only [analysisCommand]
  exact List.mem_cons_of_mem _ (List.mem_cons_of_mem _ (List.mem_cons_of_mem _
    (List.mem_cons_of_mem _ (List.mem_cons_of_mem _ (List.mem_cons_self _ _)))))

/-- C7 (amended): a failure inside the notification fan-out is caught at
the handler's own boundary: it is logged and reported to the invoker as
an execution-exception follow-up; the embed reply already sent stays in
the effect trace before it, and nothing escapes the handler. -/
theorem fanout_failure_logged_and_reported (now : Nat) (code : String)
    (result : AnalysisResult) (err : String) (sendOutcome : CallOutcome) :
    analysisCommand now code (ExecOutcome.ok result) (CallOutcome.raised err)
        sendOutcome =
      [AnalysisEffect.reply (startMsg code),
       AnalysisEffect.followupEmbed (create_analysis_embed now result),
       AnalysisEffect.callGenerateReport,
       AnalysisEffect.logError (analysisLogMsg err),
       AnalysisEffect.followup (execErrMsg err)] ∧
    analysisCommand now code (ExecOutcome.ok result) CallOutcome.ok
        (CallOutcome.raised err) =
      [AnalysisEffect.reply (startMsg code),
       AnalysisEffect.followupEmbed (create_analysis_embed now result),
       AnalysisEffect.callGenerateReport,
       AnalysisEffect.callNotifierSend,
       AnalysisEffect.logError (analysisLogMsg err),
       AnalysisEffect.followup (execErrMsg err)] := ⟨rfl, rfl⟩

end DiscordBot
